import Mathlib

/-
Verification of the ThoughtPrint repository against its natural-language
specification.  The Python sources under ThoughtPrint/core and ThoughtPrint/ui
are shallowly embedded below: dict-shaped provider configs become association
lists, JSON values become an inductive type, the network and the filesystem
become explicit environment records, and each Python function becomes a Lean
function returning its observable event trace together with its
result-or-exception.
-/

/- ## Basic string utilities mirroring the Python string operations used. -/

/-- Python membership test on characters of a prefix position:
`subAt n h` is true when `n` is a prefix of `h`. -/
def subAt : List Char → List Char → Bool
  | [], _ => true
  | _ :: _, [] => false
  | a :: as, b :: bs => a == b && subAt as bs

/-- True when the needle occurs somewhere in the haystack
(`needle in haystack` in Python). -/
def subSomewhere (needle : List Char) : List Char → Bool
  | [] => needle.isEmpty
  | b :: bs => subAt needle (b :: bs) || subSomewhere needle bs

/-- Python `needle in hay` on strings. -/
def containsSub (needle hay : String) : Bool :=
  subSomewhere needle.data hay.data

/-- Python `s.endswith(t)`. -/
def strEndsWith (s t : String) : Bool :=
  subAt t.data.reverse s.data.reverse

/-- Python `base_url.rstrip('/')`: drop every trailing slash. -/
def rstripSlash (s : String) : String :=
  String.mk ((s.data.reverse.dropWhile (fun c => c == '/')).reverse)

/-- The whitespace characters removed by Python `str.strip()`
(ASCII subset; exotic Unicode spaces do not occur in the repository). -/
def pyIsSpace (c : Char) : Bool :=
  c == ' ' || c == '\t' || c == '\n' || c == '\r' || c == '\x0b' || c == '\x0c'

/-- Python `s.strip()`. -/
def pyStrip (s : String) : String :=
  String.mk (((s.data.dropWhile pyIsSpace).reverse.dropWhile pyIsSpace).reverse)

/- ## Python `sorted` on lists of strings.
Python compares strings lexicographically by code point; `sorted` returns an
ascending permutation of its input and keeps duplicates.  Ties are between
identical strings, so a plain insertion sort is extensionally the same
function. -/

/-- Code-point lexicographic strict comparison of character lists,
as Python compares strings. -/
def chLt : List Char → List Char → Bool
  | [], [] => false
  | [], _ :: _ => true
  | _ :: _, [] => false
  | a :: as, b :: bs =>
    if a.toNat < b.toNat then true
    else if b.toNat < a.toNat then false
    else chLt as bs

/-- Python `a < b` on strings. -/
def pyStrLt (a b : String) : Bool := chLt a.data b.data

/-- Python `a <= b` on strings. -/
def pyStrLe (a b : String) : Bool := !(pyStrLt b a)

/-- Insert a string into an ascending list, before the first element
that is not below it. -/
def pyInsert (x : String) : List String → List String
  | [] => [x]
  | y :: ys => if pyStrLe x y then x :: y :: ys else y :: pyInsert x ys

/-- Python `sorted` on a list of strings (ascending, duplicates kept). -/
def pySorted : List String → List String
  | [] => []
  | x :: xs => pyInsert x (pySorted xs)

theorem chLt_asymm : ∀ a b : List Char, chLt a b = true → chLt b a = false := by
  intro a
  induction a with
  | nil => intro b h; cases b with
    | nil => simp [chLt] at h
    | cons c cs => simp [chLt]
  | cons a as ih =>
    intro b h
    cases b with
    | nil => simp [chLt] at h
    | cons c cs =>
      simp only [chLt] at h ⊢
      by_cases h1 : a.toNat < c.toNat
      · have h2 : ¬ c.toNat < a.toNat := Nat.lt_asymm h1
        simp [h1, h2]
      · by_cases h2 : c.toNat < a.toNat
        · simp [h1, h2] at h
        · simp [h1, h2] at h ⊢
          exact ih cs h

theorem pyStrLe_total (a b : String) (h : pyStrLe a b = false) :
    pyStrLe b a = true := by
  simp only [pyStrLe, Bool.not_eq_false'] at h
  simp only [pyStrLe, Bool.not_eq_true']
  exact chLt_asymm _ _ h

theorem mem_pyInsert (a x : String) (l : List String)
    (h : a ∈ pyInsert x l) : a = x ∨ a ∈ l := by
  induction l with
  | nil => simpa [pyInsert] using h
  | cons y ys ih =>
    by_cases hle : pyStrLe x y = true
    · simpa [pyInsert, hle] using h
    · simp only [pyInsert, hle, if_neg] at h
      simp only [Bool.not_eq_true] at hle
      rcases List.mem_cons.mp h with h' | h'
      · right; exact List.mem_cons.mpr (Or.inl h')
      · rcases ih h' with h'' | h''
        · left; exact h''
        · right; exact List.mem_cons.mpr (Or.inr h'')

theorem mem_pySorted (a : String) (l : List String)
    (h : a ∈ pySorted l) : a ∈ l := by
  induction l with
  | nil => simp [pySorted] at h
  | cons x xs ih =>
    rcases mem_pyInsert a x (pySorted xs) (by simpa [pySorted] using h) with h' | h'
    · exact h' ▸ List.mem_cons_self _ _
    · exact List.mem_cons.mpr (Or.inr (ih h'))

/-- The ascending-adjacency predicate used to state "sorted ascending". -/
def strAscending (l : List String) : Prop :=
  List.Chain' (fun a b => pyStrLe a b = true) l

theorem pyInsert_ascending (x : String) (l : List String)
    (h : strAscending l) : strAscending (pyInsert x l) := by
  induction l with
  | nil => simp [pyInsert, strAscending]
  | cons y ys ih =>
    by_cases hle : pyStrLe x y = true
    · simp only [pyInsert, hle, if_pos]
      exact List.Chain'.cons hle h
    · simp only [pyInsert, hle, if_neg]
      have hyx : pyStrLe y x = true :=
        pyStrLe_total x y (Bool.not_eq_true _ ▸ (by simpa using hle))
      have hys : strAscending ys := h.tail
      have htail := ih hys
      cases ys with
      | nil => simpa [pyInsert, strAscending] using hyx
      | cons z zs =>
        by_cases hxz : pyStrLe x z = true
        · simp only [pyInsert, hxz, if_pos] at htail ⊢
          exact List.Chain'.cons hyx htail
        · simp only [pyInsert, hxz, if_neg] at htail ⊢
          have hyz : pyStrLe y z = true := (List.chain'_cons.mp h).1
          exact List.Chain'.cons hyz htail

theorem pySorted_ascending (l : List String) : strAscending (pySorted l) := by
  induction l with
  | nil => simp [pySorted, strAscending]
  | cons x xs ih => exact pyInsert_ascending x (pySorted xs) ih

/- ## Data model for ThoughtPrint/core/ai_handler.py.
A provider config is a Python dict of string keys and string values; `dget`
is `dict.get`, and `truthy` is Python truthiness of an optional string. -/

/-- A Python dict with string keys and string values (the provider config). -/
abbrev PyDict := List (String × String)

/-- Python `d.get(k)`. -/
def dget (d : PyDict) (k : String) : Option String :=
  (d.find? (fun kv => kv.1 == k)).map (fun kv => kv.2)

/-- Python truthiness of `d.get(k)`: `None` and the empty string are falsy. -/
def truthy : Option String → Bool
  | none => false
  | some s => !s.isEmpty

/-- JSON values, as returned by `response.json()`. -/
inductive JVal where
  | jnull
  | jbool (b : Bool)
  | jnum (n : Int)
  | jstr (s : String)
  | jlist (xs : List JVal)
  | jobj (fields : List (String × JVal))

/-- Field lookup in a JSON object (`obj.get(key)` on a dict value). -/
def lookupField (fs : List (String × JVal)) (k : String) : Option JVal :=
  (fs.find? (fun kv => kv.1 == k)).map (fun kv => kv.2)

/-- Python truthiness of a JSON value. -/
def JVal.truthy : JVal → Bool
  | .jnull => false
  | .jbool b => b
  | .jnum n => n != 0
  | .jstr s => !s.isEmpty
  | .jlist xs => !xs.isEmpty
  | .jobj fs => !fs.isEmpty

/-- Python truthiness of an optional JSON value (a `.get` result). -/
def otruthy : Option JVal → Bool
  | none => false
  | some v => v.truthy

/-- An HTTP response: its status code and its body, `none` when the body is
not valid JSON (so `response.json()` raises `JSONDecodeError`). -/
structure HttpResp where
  status : Nat
  body : Option JVal

/-- Outcome of the single outbound `requests` call an execution makes:
either the request machinery raises `requests.RequestException`, or a
response arrives. -/
inductive NetResult where
  | raised (msg : String)
  | resp (r : HttpResp)

/-- The exceptions `get_ai_response` / `fetch_available_models` can leave
behind: `ValueError`, `AICommunicationError`, or an exception class the
handler does not catch (e.g. `AttributeError` on unexpected shapes). -/
inductive PyErr where
  | valueError (msg : String)
  | aiCommError (msg : String)
  | otherError (msg : String)

/-- The system proxy mapping returned by `requests.utils.getproxies()`. -/
abbrev SysProxies := List (String × String)

/-- Observable outbound HTTP events: url, whether an Authorization header is
attached, the `proxies=` argument (`none` is Python `proxies=None`), and for
a POST the JSON payload: model, the role/content message list, and the
`stream` flag when present. -/
inductive HttpEv where
  | post (url : String) (hasAuth : Bool) (proxies : Option SysProxies)
      (modelName : String) (messages : List (String × String)) (stream : Option Bool)
  | get (url : String) (hasAuth : Bool) (proxies : Option SysProxies)

/-- `proxies_to_use`: system proxies, except that a base url containing
`localhost` or `127.0.0.1` disables proxying (ai_handler.py lines 45-49 and
146-150). -/
def proxyChoice (baseUrl : String) (sysProxies : SysProxies) : Option SysProxies :=
  if containsSub "localhost" baseUrl || containsSub "127.0.0.1" baseUrl then none
  else some sysProxies

/-- Model-listing endpoint for an OpenAI-compatible provider
(ai_handler.py lines 159-164). -/
def openaiModelsUrl (baseUrl : String) : String :=
  let stripped := rstripSlash baseUrl
  if strEndsWith stripped "/v1" then stripped ++ "/models"
  else stripped ++ "/v1/models"

/-- Shared tail of both request branches: `requests` outcome, then
`raise_for_status()` (4xx/5xx becomes an `HTTPError`, a `RequestException`),
then `response.json()`, then the provider-specific parse. -/
def httpJson {A : Type} (net : NetResult) (netErrPfx parseErrMsg : String)
    (parse : JVal → Except PyErr A) : Except PyErr A :=
  match net with
  | .raised m => .error (.aiCommError (netErrPfx ++ m))
  | .resp r =>
    if 400 ≤ r.status ∧ r.status < 600 then
      .error (.aiCommError (netErrPfx ++ "HTTP status " ++ toString r.status))
    else
      match r.body with
      | none => .error (.aiCommError parseErrMsg)
      | some rd => parse rd

/-- The `if message and message.get("content"): return message["content"].strip()`
step shared by both chat branches (ai_handler.py lines 81-82 and 102-103).
A falsy or absent value falls through to the branch's
`AICommunicationError`; `.get`/`.strip` on a value of the wrong Python type
raises an `AttributeError` the handler does not catch. -/
def msgContent (message : Option JVal) (noValidMsg : String) : Except PyErr String :=
  match message with
  | none => .error (.aiCommError noValidMsg)
  | some m =>
    if m.truthy then
      match m with
      | .jobj mfs =>
        let content := lookupField mfs "content"
        if otruthy content then
          match content with
          | some (.jstr s) => .ok (pyStrip s)
          | _ => .error (.otherError "AttributeError: strip on a non-string content value")
        else .error (.aiCommError noValidMsg)
      | _ => .error (.otherError "AttributeError: get on a non-dict message value")
    else .error (.aiCommError noValidMsg)

/-- Content extraction for the OpenAI-compatible chat branch
(ai_handler.py lines 79-83), including the Python behaviour on each
unexpected shape of `choices`: `len()` of a number raises `TypeError`
(caught and re-raised as `AICommunicationError`), subscripting a dict with
`0` raises `KeyError` (likewise caught), `.get` on a string element raises
an uncaught `AttributeError`. -/
def extractOpenAIContent (rd : JVal) : Except PyErr String :=
  let noValid := "No valid content found in OpenAI-compatible response."
  let parseErr := "Error parsing AI response or unexpected response structure: "
  match rd with
  | .jobj fs =>
    match lookupField fs "choices" with
    | some (.jlist (c :: _)) =>
      match c with
      | .jobj cfs => msgContent (lookupField cfs "message") noValid
      | _ => .error (.otherError "AttributeError: get on a non-dict choices element")
    | some (.jlist []) => .error (.aiCommError noValid)
    | some (.jstr s) =>
      if s.isEmpty then .error (.aiCommError noValid)
      else .error (.otherError "AttributeError: get on a one-character string")
    | some (.jobj ofs) =>
      if ofs.isEmpty then .error (.aiCommError noValid)
      else .error (.aiCommError (parseErr ++ "KeyError"))
    | some (.jnum n) =>
      if n == 0 then .error (.aiCommError noValid)
      else .error (.aiCommError (parseErr ++ "TypeError"))
    | some (.jbool b) =>
      if b then .error (.aiCommError (parseErr ++ "TypeError"))
      else .error (.aiCommError noValid)
    | some .jnull => .error (.aiCommError noValid)
    | none => .error (.aiCommError noValid)
  | _ => .error (.otherError "AttributeError: get on a non-dict response")

/-- Content extraction for the Ollama chat branch (ai_handler.py
lines 102-107). -/
def extractOllamaContent (rd : JVal) : Except PyErr String :=
  let noValid := "No valid content found in Ollama response."
  if rd.truthy then
    match rd with
    | .jobj fs => msgContent (lookupField fs "message") noValid
    | _ => .error (.otherError "AttributeError: get on a non-dict response")
  else .error (.aiCommError noValid)

/-- ai_handler.get_ai_response.  Arguments beyond the Python signature are
the ambient state the Python reads: the system proxy configuration and the
outcome of the one outbound `requests.post` the call would make.  Returns
the outbound-request trace together with the result or raised exception. -/
def get_ai_response (userInput : String) (cfg : PyDict) (systemPrompt : String)
    (sysProxies : SysProxies) (net : NetResult) :
    List HttpEv × Except PyErr String :=
  if cfg.isEmpty then
    ([], .error (.valueError "Invalid provider_config provided."))
  else
    let ptype := dget cfg "type"
    let baseUrl := dget cfg "base_url"
    let modelName := dget cfg "model"
    if !(truthy ptype && truthy baseUrl && truthy modelName) then
      ([], .error (.valueError "Provider config is missing 'type', 'base_url', or 'model'."))
    else
      let base := baseUrl.getD ""
      let proxies := proxyChoice base sysProxies
      if ptype == some "openai_compatible" then
        if !truthy (dget cfg "api_key") then
          ([], .error (.valueError "API key is missing for OpenAI-compatible provider."))
        else
          let endpoint := rstripSlash base ++ "/chat/completions"
          ([HttpEv.post endpoint true proxies (modelName.getD "")
              [("system", systemPrompt), ("user", userInput)] none],
            httpJson net "Network or request error: "
              "Error parsing AI response or unexpected response structure: JSONDecodeError"
              extractOpenAIContent)
      else if ptype == some "ollama" then
        let endpoint := rstripSlash base ++ "/api/chat"
        ([HttpEv.post endpoint false proxies (modelName.getD "")
            [("system", systemPrompt), ("user", userInput)] (some false)],
          httpJson net "Network or request error: "
            "Error parsing AI response or unexpected response structure: JSONDecodeError"
            extractOllamaContent)
      else
        ([], .error (.valueError ("Unsupported provider type: " ++ ptype.getD "")))

/- ## ai_handler.fetch_available_models. -/

/-- The list comprehension over the OpenAI-style `data` array
(ai_handler.py line 172, and line 190 with key `name` for Ollama):
collect the truthy values of `elem.get(key)`, left to right.  A non-dict
element raises `AttributeError`, which the handler does not catch; the
`Except` error case records that. -/
def collectFieldVals (key : String) : List JVal → Except Unit (List JVal)
  | [] => .ok []
  | .jobj fs :: rest =>
    (collectFieldVals key rest).map (fun tail =>
      let v := lookupField fs key
      if otruthy v then v.getD .jnull :: tail else tail)
  | _ :: _ => .error ()

/-- The guarded comprehension over a bare top-level list
(ai_handler.py line 175): non-dict elements are filtered by the
`isinstance(model_dict, dict)` check, so nothing can raise. -/
def collectIdsGuarded (xs : List JVal) : List JVal :=
  xs.filterMap (fun v =>
    match v with
    | .jobj fs =>
      let idv := lookupField fs "id"
      if otruthy idv then idv else none
    | _ => none)

/-- All values are JSON strings; return them, or `none` when some value has
another type. -/
def allStrings : List JVal → Option (List String)
  | [] => some []
  | .jstr s :: rest => (allStrings rest).map (fun ss => s :: ss)
  | _ :: _ => none

/-- Python `sorted` applied to the collected identifier values.  All real
responses carry string identifiers; the embedding maps any non-string value
to the `TypeError` outcome that `sorted` produces when it compares a
non-string with a string (Python would admit an all-numeric list, a shape no
provider emits). -/
def sortVals (vs : List JVal) : Except PyErr (List String) :=
  match allStrings vs with
  | some ss => .ok (pySorted ss)
  | none => .error (.aiCommError
      "Error parsing models list or unexpected response structure: TypeError")

/-- Parse of the OpenAI-compatible model listing (ai_handler.py
lines 170-177): a dict with a truthy `data` list, or a bare list of dicts;
anything else raises `AICommunicationError`. -/
def parseOpenAIModels (rd : JVal) : Except PyErr (List String) :=
  let unexpected : Except PyErr (List String) :=
    .error (.aiCommError "Unexpected response structure for OpenAI-compatible models list.")
  match rd with
  | .jobj fs =>
    match lookupField fs "data" with
    | some (.jlist (x :: xs)) =>
      match collectFieldVals "id" (x :: xs) with
      | .error _ => .error (.otherError "AttributeError: get on a non-dict data element")
      | .ok vals => sortVals vals
    | _ => unexpected
  | .jlist xs => sortVals (collectIdsGuarded xs)
  | _ => unexpected

/-- Parse of the Ollama model listing (ai_handler.py lines 186-191):
a dict with a truthy `models` list of dicts carrying `name`. -/
def parseOllamaModels (rd : JVal) : Except PyErr (List String) :=
  match rd with
  | .jobj fs =>
    match lookupField fs "models" with
    | some (.jlist (x :: xs)) =>
      match collectFieldVals "name" (x :: xs) with
      | .error _ => .error (.otherError "AttributeError: get on a non-dict models element")
      | .ok vals => sortVals vals
    | _ => .error (.aiCommError "Unexpected response structure for Ollama models list.")
  | _ => .error (.otherError "AttributeError: get on a non-dict response")

/-- ai_handler.fetch_available_models, with the same ambient-state arguments
as `get_ai_response`.  Note the contrast with the chat path: a missing or
empty `api_key` does not raise; it merely omits the Authorization header
(ai_handler.py lines 154-157). -/
def fetch_available_models (cfg : PyDict) (sysProxies : SysProxies)
    (net : NetResult) : List HttpEv × Except PyErr (List String) :=
  if cfg.isEmpty then
    ([], .error (.valueError "Invalid provider_config provided for fetching models."))
  else
    let ptype := dget cfg "type"
    let baseUrl := dget cfg "base_url"
    if !(truthy ptype && truthy baseUrl) then
      ([], .error (.valueError "Provider config is missing 'type' or 'base_url' for fetching models."))
    else
      let base := baseUrl.getD ""
      let proxies := proxyChoice base sysProxies
      if ptype == some "openai_compatible" then
        let hasAuth := truthy (dget cfg "api_key")
        ([HttpEv.get (openaiModelsUrl base) hasAuth proxies],
          httpJson net "Network or request error while fetching models: "
            "Error parsing models list or unexpected response structure: JSONDecodeError"
            parseOpenAIModels)
      else if ptype == some "ollama" then
        ([HttpEv.get (rstripSlash base ++ "/api/tags") false proxies],
          httpJson net "Network or request error while fetching models: "
            "Error parsing models list or unexpected response structure: JSONDecodeError"
            parseOllamaModels)
      else
        ([], .error (.valueError ("Unsupported provider type for fetching models: " ++ ptype.getD "")))

/- ## ThoughtPrint/core/pdf_generator.py. -/

/-- Filesystem/platform state read by `get_pdf_output_path`: the current
working directory, the result of `Path.home()` (which can raise), the
`is_dir` predicate, the `XDG_DOCUMENTS_DIR` environment variable, whether
`mkdir(parents=True, exist_ok=True)` succeeds on a path, and the hex digest
produced by `uuid.uuid4()`. -/
structure PathEnv where
  cwd : String
  homeRaises : Bool
  home : String
  isDir : String → Bool
  xdgDocumentsDir : Option String
  mkdirOk : String → Bool
  uuidHex : String

/-- Path join, `a / b` on `pathlib` paths. -/
def pjoin (a b : String) : String := a ++ "/" ++ b

/-- Python truthiness of a `pathlib.Path` value.  `Path` defines no
`__bool__`, so every `Path` instance is truthy — including the line
`if not documents_dir and home_dir.is_dir():` in `get_pdf_output_path`
(pdf_generator.py line 48), whose condition is therefore always false. -/
def pathTruthy (_p : String) : Bool := true

/-- pdf_generator._sanitize_filename_segment: delete the problematic
filename characters, then `strip()`. -/
def _sanitize_filename_segment (segment : String) : String :=
  let invalidChars : List Char := ['/', '\\', ':', '*', '?', '\"', '<', '>', '|']
  pyStrip (String.mk (segment.data.filter (fun c => !invalidChars.contains c)))

/-- pdf_generator.get_pdf_output_path (lines 23-77).  Faithful to the
source, including the dead fallback to the home directory guarded by
`not documents_dir`, which never fires because a `Path` is always truthy. -/
def get_pdf_output_path (_userPrompt : String) (env : PathEnv) :
    Except String (String × String) :=
  let d0 := env.cwd
  let afterTry :=
    if env.homeRaises then d0
    else
      let documentsCandidate := pjoin env.home "Documents"
      if env.isDir documentsCandidate then documentsCandidate
      else
        let d1 :=
          match env.xdgDocumentsDir with
          | some x => if !x.isEmpty && env.isDir x then x else d0
          | none => d0
        if !pathTruthy d1 && env.isDir env.home then env.home else d1
  let documents_dir := if !(env.isDir afterTry) then env.cwd else afterTry
  let output_base_dir := pjoin documents_dir "ThoughtPrint"
  if env.mkdirOk output_base_dir then
    .ok (output_base_dir, _sanitize_filename_segment env.uuidHex)
  else
    .error ("Could not create output directory '" ++ output_base_dir ++ "': OSError")

/-- The parent-directory selection order the specification asserts: the user
documents folder, then the XDG documents variable, then the home directory,
then the current working directory — the first that exists and is a
directory.  Stated from the spec wording, for comparison with
`get_pdf_output_path`. -/
def selectedDocumentsDirSpec (env : PathEnv) : String :=
  if env.isDir (pjoin env.home "Documents") then pjoin env.home "Documents"
  else
    match env.xdgDocumentsDir with
    | some x =>
      if env.isDir x then x
      else if env.isDir env.home then env.home else env.cwd
    | none => if env.isDir env.home then env.home else env.cwd

/-- Outcomes of the subprocess runs and file writes `pdf_generator`
performs: spawning an external process with an argument vector, and
writing a file with given content.  The code never deletes a file, so a
file exists afterwards iff a `writeMd` event for it is in the trace. -/
inductive PdfEv where
  | spawnProc (cmd : List String)
  | writeMd (path content : String)

/-- Outcome environment for `check_pandoc_and_xelatex`: whether
`shutil.which("pandoc")` finds pandoc, and the exit/stdout/raise behaviour
of the two `xelatex --version` probe invocations. -/
structure DepEnv where
  pandocOnPath : Bool
  xelatexRaises : Bool
  xelatexExit : Int
  xelatexStdout : String
  shellRaises : Bool
  shellExit : Int
  shellStdout : String

/-- The argument vector of the first xelatex probe. -/
def xelatexProbe : List String := ["xelatex", "--version"]

/-- pdf_generator.check_pandoc_and_xelatex (lines 80-117), returning the
spawned-process trace and the `(ok, message)` pair. -/
def check_pandoc_and_xelatex (env : DepEnv) : List PdfEv × Bool × String :=
  if !env.pandocOnPath then
    ([], false, "Pandoc not found in system PATH.")
  else
    let t1 := [PdfEv.spawnProc xelatexProbe]
    let failMsg := "XeLaTeX not found or not working correctly. Ensure a TeX distribution (like TeX Live or MiKTeX) with xelatex is installed."
    let raiseMsg := "XeLaTeX check failed: error. Ensure a TeX distribution is installed and in PATH."
    if env.xelatexRaises then (t1, false, raiseMsg)
    else if env.xelatexExit != 0 || !containsSub "XeTeX" env.xelatexStdout then
      let t2 := t1 ++ [PdfEv.spawnProc ["xelatex --version"]]
      if env.shellRaises then (t2, false, raiseMsg)
      else if env.shellExit != 0 || !containsSub "XeTeX" env.shellStdout then
        (t2, false, failMsg)
      else (t2, true, "Pandoc and XeLaTeX seem to be available.")
    else (t1, true, "Pandoc and XeLaTeX seem to be available.")

/-- The pandoc argument vector of pdf_generator.create_pdf (lines 154-164). -/
def pandocCommand (mdPath pdfPath base : String) : List String :=
  ["pandoc", "-s", "-f", "gfm", mdPath, "-o", pdfPath,
   "--pdf-engine=xelatex",
   "--metadata=title:" ++ base.replace "_" " ",
   "--lua-filter", ".\\no-remote-images.lua",
   "-V", "CJKmainfont=SimSun"]

/-- The `PDFGenerationError` message for a non-zero pandoc exit
(pdf_generator.py lines 183-185). -/
def pandocFailMsg (code : Int) (out err : String) : String :=
  "Pandoc execution failed (return code " ++ toString code ++ ").\n" ++
  "Stdout: " ++ out ++ "\nStderr: " ++ err ++ "\n" ++
  "Ensure Pandoc, XeLaTeX, and required fonts (e.g., SimSun) are installed and configured."

/-- Full environment of one `create_pdf` run. -/
structure PdfEnv where
  dep : DepEnv
  path : PathEnv
  writeOk : Bool
  writeErrMsg : String
  pandocFileNotFound : Bool
  pandocTimeout : Bool
  pandocExit : Int
  pandocStdout : String
  pandocStderr : String

/-- pdf_generator.create_pdf (lines 120-200): dependency check first, then
output-path derivation, then the Markdown write, then the pandoc run.
On a non-zero pandoc exit the written `.md` file is deliberately left on
disk (source comment at lines 186-187); the embedding has no delete event
anywhere. -/
def create_pdf (userPrompt aiResponseMarkdown : String) (env : PdfEnv) :
    List PdfEv × Except String String :=
  match check_pandoc_and_xelatex env.dep with
  | (t0, false, msg) => (t0, .error ("Dependency check failed: " ++ msg))
  | (t0, true, _) =>
    match get_pdf_output_path userPrompt env.path with
    | .error m => (t0, .error m)
    | .ok (dir, base) =>
      let mdPath := pjoin dir (base ++ ".md")
      let pdfPath := pjoin dir (base ++ ".pdf")
      if !env.writeOk then
        (t0, .error ("Could not save Markdown file to '" ++ mdPath ++ "': " ++ env.writeErrMsg))
      else
        let t1 := t0 ++ [PdfEv.writeMd mdPath aiResponseMarkdown]
        if env.pandocFileNotFound then
          (t1, .error "Pandoc executable not found. Please ensure it's installed and in PATH.")
        else
          let t2 := t1 ++ [PdfEv.spawnProc (pandocCommand mdPath pdfPath base)]
          if env.pandocTimeout then
            (t2, .error "Pandoc command timed out. The document might be too large or complex.")
          else if env.pandocExit != 0 then
            (t2, .error (pandocFailMsg env.pandocExit env.pandocStdout env.pandocStderr))
          else
            (t2, .ok pdfPath)

/-- The paths of the files a trace wrote (the code deletes nothing, so
these are exactly the files existing afterwards that the run created). -/
def filesWritten (tr : List PdfEv) : List String :=
  tr.filterMap (fun e => match e with | .writeMd p _ => some p | _ => none)

/-- The contents written to `.md` files during a trace. -/
def mdWrites (tr : List PdfEv) : List String :=
  tr.filterMap (fun e => match e with | .writeMd _ c => some c | _ => none)

/- ## ThoughtPrint/ui/main_window.py: the Worker. -/

/-- The Qt signals `Worker` can emit: `success(pdf_path)`,
`error(title, message)` and the terminal `finished()`. -/
inductive WorkSig where
  | success (path : String)
  | errorSig (title msg : String)
  | finished

/-- Outcome of the `pdf_generator.create_pdf` call as the Worker's `except`
clauses classify it: a path, a `PDFGenerationError`, or any other
exception. -/
inductive PdfCallResult where
  | okPdf (path : String)
  | pdfGenError (msg : String)
  | unexpectedError (msg : String)

/-- main_window.Worker.run (lines 44-79): the AI phase in its own
try/except, each handler emitting `error` then `finished` and returning;
then the PDF phase whose `finally` emits `finished`.  The function is total
over every classified outcome: the `except Exception` catch-alls mean no
exception escapes the worker. -/
def workerRun (aiRes : Except PyErr String) (pdfRes : PdfCallResult) :
    List WorkSig :=
  match aiRes with
  | .error (.aiCommError m) =>
    [WorkSig.errorSig "AI Error" ("Error communicating with AI provider: " ++ m),
     WorkSig.finished]
  | .error (.valueError m) =>
    [WorkSig.errorSig "AI Configuration Error" ("AI configuration error: " ++ m),
     WorkSig.finished]
  | .error (.otherError m) =>
    [WorkSig.errorSig "Unexpected AI Error"
       ("An unexpected error occurred with the AI handler: " ++ m),
     WorkSig.finished]
  | .ok _ =>
    match pdfRes with
    | .okPdf p => [WorkSig.success p, WorkSig.finished]
    | .pdfGenError m =>
      [WorkSig.errorSig "PDF Generation Error" ("Error generating PDF: " ++ m),
       WorkSig.finished]
    | .unexpectedError m =>
      [WorkSig.errorSig "Unexpected PDF Error"
         ("An unexpected error occurred during PDF generation: " ++ m),
       WorkSig.finished]

/-- True for the two outcome signals, false for `finished`. -/
def isOutcomeSig : WorkSig → Bool
  | .success _ => true
  | .errorSig _ _ => true
  | .finished => false

/-- True exactly for `finished`. -/
def isFinishedSig : WorkSig → Bool
  | .finished => true
  | _ => false

/- ## ThoughtPrint/ui/settings_dialog.py: the ModelFetcher. -/

/-- The Qt signals `ModelFetcher` can emit. -/
inductive FetchSig where
  | modelsFetched (models : List String)
  | errorOccurred (msg : String)
  | finishedSig

/-- settings_dialog.ModelFetcher.run (lines 35-56): a config missing
`type` or `base_url` (or empty) short-circuits to `models_fetched([])`;
otherwise `fetch_available_models` runs and its exceptions are classified;
`finally` always emits `finished`. -/
def modelFetcherRun (cfg : PyDict) (sysProxies : SysProxies) (net : NetResult) :
    List FetchSig :=
  if cfg.isEmpty || !truthy (dget cfg "type") || !truthy (dget cfg "base_url") then
    [FetchSig.modelsFetched [], FetchSig.finishedSig]
  else
    match (fetch_available_models cfg sysProxies net).2 with
    | .ok ms => [FetchSig.modelsFetched ms, FetchSig.finishedSig]
    | .error (.aiCommError m) =>
      [FetchSig.errorOccurred ("Could not fetch models: " ++ m), FetchSig.finishedSig]
    | .error (.valueError m) =>
      [FetchSig.errorOccurred ("Configuration error for model fetching: " ++ m),
       FetchSig.finishedSig]
    | .error (.otherError m) =>
      [FetchSig.errorOccurred ("An unexpected error occurred while fetching models: " ++ m),
       FetchSig.finishedSig]

/- ## The chat-then-render pipeline the Worker delegates to. -/

/-- The sequential composition Worker.run performs on success of the AI
phase: the string returned by `get_ai_response` is passed verbatim to
`create_pdf` as the Markdown to persist. -/
def chatThenRender (userInput : String) (cfg : PyDict) (systemPrompt : String)
    (sysProxies : SysProxies) (net : NetResult) (penv : PdfEnv) :
    List PdfEv × Except String String :=
  match (get_ai_response userInput cfg systemPrompt sysProxies net).2 with
  | .ok md => create_pdf userInput md penv
  | .error _ => ([], .error "chat failed; render never reached")

/- ## Claim theorems. -/

/-- C2: for every execution of Worker.run, exactly one of the success/error
signals is emitted, the terminal finished signal is emitted exactly once and
strictly after that outcome signal, and — the function being total over all
classified outcomes, the Python catch-alls — no exception escapes the
worker uncaught. -/
theorem worker_emits_one_outcome_then_finished
    (aiRes : Except PyErr String) (pdfRes : PdfCallResult) :
    (workerRun aiRes pdfRes).length = 2 ∧
    (workerRun aiRes pdfRes).countP isOutcomeSig = 1 ∧
    (workerRun aiRes pdfRes).countP isFinishedSig = 1 ∧
    (workerRun aiRes pdfRes).getLast? = some WorkSig.finished := by
  cases aiRes with
  | error e => cases e <;> exact ⟨rfl, rfl, rfl, rfl⟩
  | ok md => cases pdfRes <;> exact ⟨rfl, rfl, rfl, rfl⟩

/-- C7: a model-discovery submission whose config lacks a truthy `type` or
`base_url` short-circuits to `models_fetched([])` — a success outcome with
an empty list, never `error_occurred` — and still fires `finished`. -/
theorem model_fetcher_short_circuits_on_missing_config
    (cfg : PyDict) (sysProxies : SysProxies) (net : NetResult)
    (h : truthy (dget cfg "type") = false ∨ truthy (dget cfg "base_url") = false) :
    modelFetcherRun cfg sysProxies net
      = [FetchSig.modelsFetched [], FetchSig.finishedSig] := by
  unfold modelFetcherRun
  rcases h with h | h <;> simp [h]

/-- Witness for C7: the empty config resolves to the empty success outcome. -/
theorem model_fetcher_short_circuits_on_missing_config_witness :
    modelFetcherRun [] [("http", "http://proxy:3128")] (.raised "refused")
      = [FetchSig.modelsFetched [], FetchSig.finishedSig] :=
  model_fetcher_short_circuits_on_missing_config [] [("http", "http://proxy:3128")]
    (.raised "refused") (Or.inl rfl)

/-- An OpenAI-compatible provider config with no `api_key` entry. -/
def cfgMissingKey : PyDict :=
  [("type", "openai_compatible"), ("base_url", "http://localhost:1234"), ("model", "m")]

/-- Counterexample to C1 as stated: with an OpenAI-compatible config whose
`api_key` is missing, `fetch_available_models` does NOT fail with a
config error before the network — it issues the HTTP GET (here reaching a
network failure), merely omitting the Authorization header. -/
theorem fetch_models_requests_despite_missing_api_key :
    fetch_available_models cfgMissingKey [("http", "http://proxy:3128")]
        (.raised "connection refused")
      = ([HttpEv.get "http://localhost:1234/v1/models" false none],
         .error (.aiCommError
           "Network or request error while fetching models: connection refused")) := rfl

/-- C1 amended: for an OpenAI-compatible config with `api_key` empty or
missing, `get_ai_response` raises the config `ValueError` with no outbound
request, while `fetch_available_models` treats the key as optional and
issues its request without an Authorization header. -/
theorem chat_requires_api_key_but_model_listing_does_not
    (userInput systemPrompt : String) (cfg : PyDict) (sysProxies : SysProxies)
    (net1 net2 : NetResult)
    (htype : dget cfg "type" = some "openai_compatible")
    (hbase : truthy (dget cfg "base_url") = true)
    (hmodel : truthy (dget cfg "model") = true)
    (hkey : truthy (dget cfg "api_key") = false) :
    get_ai_response userInput cfg systemPrompt sysProxies net1
      = ([], .error (.valueError "API key is missing for OpenAI-compatible provider."))
    ∧ (fetch_available_models cfg sysProxies net2).1
      = [HttpEv.get (openaiModelsUrl ((dget cfg "base_url").getD "")) false
          (proxyChoice ((dget cfg "base_url").getD "") sysProxies)] := by
  cases cfg with
  | nil => simp [dget] at htype
  | cons kv rest =>
    constructor
    · have ht : truthy (some "openai_compatible") = true := rfl
      simp [get_ai_response, htype, ht, hbase, hmodel, hkey]
    · have ht : truthy (some "openai_compatible") = true := rfl
      simp [fetch_available_models, htype, ht, hbase, hkey]

/-- Witness for the amended C1 at a concrete keyless config. -/
theorem chat_requires_api_key_but_model_listing_does_not_witness :
    get_ai_response "hi" [("type", "openai_compatible"), ("base_url", "http://b"), ("model", "m")]
        "sys" [] (.raised "x")
      = ([], .error (.valueError "API key is missing for OpenAI-compatible provider."))
    ∧ (fetch_available_models
        [("type", "openai_compatible"), ("base_url", "http://b"), ("model", "m")] [] (.raised "y")).1
      = [HttpEv.get (openaiModelsUrl ((dget [("type", "openai_compatible"), ("base_url", "http://b"), ("model", "m")] "base_url").getD "")) false
          (proxyChoice ((dget [("type", "openai_compatible"), ("base_url", "http://b"), ("model", "m")] "base_url").getD "") [])] :=
  chat_requires_api_key_but_model_listing_does_not "hi" "sys"
    [("type", "openai_compatible"), ("base_url", "http://b"), ("model", "m")]
    [] (.raised "x") (.raised "y") rfl rfl rfl rfl

/-- C9: for every OpenAI-compatible config, the model-listing request goes
to the base url with trailing slashes removed, extended by `/models` when
it already ends in `/v1` and by `/v1/models` otherwise. -/
theorem fetch_models_openai_endpoint_shape
    (cfg : PyDict) (sysProxies : SysProxies) (net : NetResult)
    (htype : dget cfg "type" = some "openai_compatible")
    (hbase : truthy (dget cfg "base_url") = true) :
    (fetch_available_models cfg sysProxies net).1
      = [HttpEv.get
          (if strEndsWith (rstripSlash ((dget cfg "base_url").getD "")) "/v1"
           then rstripSlash ((dget cfg "base_url").getD "") ++ "/models"
           else rstripSlash ((dget cfg "base_url").getD "") ++ "/v1/models")
          (truthy (dget cfg "api_key"))
          (proxyChoice ((dget cfg "base_url").getD "") sysProxies)] := by
  cases cfg with
  | nil => simp [dget] at htype
  | cons kv rest =>
    have ht : truthy (some "openai_compatible") = true := rfl
    simp [fetch_available_models, htype, ht, hbase, openaiModelsUrl]

/-- Witness for C9 at a base url already ending in `/v1` (with a trailing
slash to strip). -/
theorem fetch_models_openai_endpoint_shape_witness :
    (fetch_available_models [("type", "openai_compatible"), ("base_url", "https://api.example.com/v1/")]
        [] (.raised "x")).1
      = [HttpEv.get
          (if strEndsWith (rstripSlash ((dget [("type", "openai_compatible"), ("base_url", "https://api.example.com/v1/")] "base_url").getD "")) "/v1"
           then rstripSlash ((dget [("type", "openai_compatible"), ("base_url", "https://api.example.com/v1/")] "base_url").getD "") ++ "/models"
           else rstripSlash ((dget [("type", "openai_compatible"), ("base_url", "https://api.example.com/v1/")] "base_url").getD "") ++ "/v1/models")
          (truthy (dget [("type", "openai_compatible"), ("base_url", "https://api.example.com/v1/")] "api_key"))
          (proxyChoice ((dget [("type", "openai_compatible"), ("base_url", "https://api.example.com/v1/")] "base_url").getD "") [])] :=
  fetch_models_openai_endpoint_shape
    [("type", "openai_compatible"), ("base_url", "https://api.example.com/v1/")]
    [] (.raised "x") rfl rfl

/-- The `proxies=` argument an event carried. -/
def evProxies : HttpEv → Option SysProxies
  | .post _ _ p _ _ _ => p
  | .get _ _ p => p

theorem get_ai_response_event_proxies (userInput systemPrompt : String)
    (cfg : PyDict) (sysProxies : SysProxies) (net : NetResult) (ev : HttpEv)
    (h : ev ∈ (get_ai_response userInput cfg systemPrompt sysProxies net).1) :
    evProxies ev = proxyChoice ((dget cfg "base_url").getD "") sysProxies := by
  by_cases h0 : cfg.isEmpty
  · simp [get_ai_response, h0] at h
  · by_cases h1 : (truthy (dget cfg "type") && truthy (dget cfg "base_url")
        && truthy (dget cfg "model")) = true
    · by_cases h2 : (dget cfg "type" == some "openai_compatible") = true
      · by_cases h3 : truthy (dget cfg "api_key") = true
        · simp [get_ai_response, h0, h1, h2, h3] at h
          subst h; rfl
        · simp only [Bool.not_eq_true] at h3
          simp [get_ai_response, h0, h1, h2, h3] at h
      · by_cases h4 : (dget cfg "type" == some "ollama") = true
        · simp only [Bool.not_eq_true] at h2
          simp [get_ai_response, h0, h1, h2, h4] at h
          subst h; rfl
        · simp only [Bool.not_eq_true] at h2 h4
          simp [get_ai_response, h0, h1, h2, h4] at h
    · simp only [Bool.not_eq_true] at h1
      simp [get_ai_response, h0, h1] at h

theorem fetch_available_models_event_proxies (cfg : PyDict)
    (sysProxies : SysProxies) (net : NetResult) (ev : HttpEv)
    (h : ev ∈ (fetch_available_models cfg sysProxies net).1) :
    evProxies ev = proxyChoice ((dget cfg "base_url").getD "") sysProxies := by
  by_cases h0 : cfg.isEmpty
  · simp [fetch_available_models, h0] at h
  · by_cases h1 : (truthy (dget cfg "type") && truthy (dget cfg "base_url")) = true
    · by_cases h2 : (dget cfg "type" == some "openai_compatible") = true
      · simp [fetch_available_models, h0, h1, h2] at h
        subst h; rfl
      · by_cases h4 : (dget cfg "type" == some "ollama") = true
        · simp only [Bool.not_eq_true] at h2
          simp [fetch_available_models, h0, h1, h2, h4] at h
          subst h; rfl
        · simp only [Bool.not_eq_true] at h2 h4
          simp [fetch_available_models, h0, h1, h2, h4] at h
    · simp only [Bool.not_eq_true] at h1
      simp [fetch_available_models, h0, h1] at h

/-- C4: every outbound request either function makes carries no proxy when
the base url contains `localhost` or `127.0.0.1`, and carries the
system-configured proxies otherwise. -/
theorem loopback_requests_carry_no_proxy (userInput systemPrompt : String)
    (cfg : PyDict) (sysProxies : SysProxies) (net1 net2 : NetResult) (ev : HttpEv)
    (h : ev ∈ (get_ai_response userInput cfg systemPrompt sysProxies net1).1
       ∨ ev ∈ (fetch_available_models cfg sysProxies net2).1) :
    evProxies ev =
      (if containsSub "localhost" ((dget cfg "base_url").getD "")
          || containsSub "127.0.0.1" ((dget cfg "base_url").getD "")
       then none else some sysProxies) := by
  rcases h with h | h
  · exact get_ai_response_event_proxies userInput systemPrompt cfg sysProxies net1 ev h
  · exact fetch_available_models_event_proxies cfg sysProxies net2 ev h

/-- The loopback Ollama config used for the C4 witness. -/
def cfgLoopback : PyDict := [("type", "ollama"), ("base_url", "http://127.0.0.1:11434")]

/-- Witness for C4: the single request of a loopback model listing carries
`proxies=None` despite a configured system proxy. -/
theorem loopback_requests_carry_no_proxy_witness :
    evProxies (HttpEv.get "http://127.0.0.1:11434/api/tags" false none) =
      (if containsSub "localhost" ((dget cfgLoopback "base_url").getD "")
          || containsSub "127.0.0.1" ((dget cfgLoopback "base_url").getD "")
       then none else some [("http", "http://proxy:3128")]) :=
  loopback_requests_carry_no_proxy "u" "s" cfgLoopback [("http", "http://proxy:3128")]
    (.raised "x") (.raised "connection refused")
    (HttpEv.get "http://127.0.0.1:11434/api/tags" false none)
    (Or.inr (List.Mem.head _))

/-- A filesystem state in which the user's `Documents` folder does not
exist, no XDG documents variable is set, and the home directory exists and
is a directory — exactly the state in which the claimed fallback order
should pick the home directory. -/
def envDeadHomeFallback : PathEnv where
  cwd := "/cwd"
  homeRaises := false
  home := "/home/u"
  isDir := fun p => p == "/home/u" || p == "/cwd"
  xdgDocumentsDir := none
  mkdirOk := fun _ => true
  uuidHex := "deadbeef1234"

/-- C6: the code places the output under the current working directory even
though the home directory exists and is a directory, because the guard
`if not documents_dir and home_dir.is_dir():` compares a `pathlib.Path`,
which is always truthy — the home-directory fallback its own comment (and
the spec) describe is dead code.  The spec-ordered selection
(`selectedDocumentsDirSpec`) picks the home directory on the same state. -/
theorem get_pdf_output_path_skips_home_fallback :
    get_pdf_output_path "p" envDeadHomeFallback
        = .ok ("/cwd/ThoughtPrint", "deadbeef1234")
    ∧ envDeadHomeFallback.isDir "/home/u" = true
    ∧ selectedDocumentsDirSpec envDeadHomeFallback = "/home/u" :=
  ⟨rfl, rfl, rfl⟩

/-- An otherwise healthy environment in which the Markdown write fails. -/
def envWriteFail : PdfEnv where
  dep := { pandocOnPath := true, xelatexRaises := false, xelatexExit := 0,
           xelatexStdout := "XeTeX 3.141592653", shellRaises := false,
           shellExit := 0, shellStdout := "" }
  path := { cwd := "/cwd", homeRaises := false, home := "/home/u",
            isDir := fun _ => true, xdgDocumentsDir := none,
            mkdirOk := fun _ => true, uuidHex := "abc123" }
  writeOk := false
  writeErrMsg := "disk full"
  pandocFileNotFound := false
  pandocTimeout := false
  pandocExit := 0
  pandocStdout := ""
  pandocStderr := ""

/-- Counterexample to C5 as stated: the dependency check — which spawns the
xelatex probe process — runs before the Markdown write, so when the write
fails an external process has already been spawned and no `.md` write has
happened first. -/
theorem create_pdf_probes_dependencies_before_writing :
    create_pdf "prompt" "hello" envWriteFail
      = ([PdfEv.spawnProc ["xelatex", "--version"]],
         .error "Could not save Markdown file to '/home/u/Documents/ThoughtPrint/abc123.md': disk full") :=
  rfl

/-- C5 amended: `create_pdf` verifies pandoc/xelatex first and writes the
Markdown file second; when the write fails, the error is raised before the
converter process is spawned — the trace holds only the dependency probe,
no write and no pandoc invocation. -/
theorem create_pdf_write_failure_precedes_converter
    (userPrompt md : String) (env : PdfEnv)
    (h1 : env.dep.pandocOnPath = true) (h2 : env.dep.xelatexRaises = false)
    (h3 : env.dep.xelatexExit = 0)
    (h4 : containsSub "XeTeX" env.dep.xelatexStdout = true)
    (h5 : env.writeOk = false) (d b : String)
    (h6 : get_pdf_output_path userPrompt env.path = .ok (d, b)) :
    create_pdf userPrompt md env
      = ([PdfEv.spawnProc xelatexProbe],
         .error ("Could not save Markdown file to '" ++ pjoin d (b ++ ".md")
                  ++ "': " ++ env.writeErrMsg)) := by
  have hc : check_pandoc_and_xelatex env.dep
      = ([PdfEv.spawnProc xelatexProbe], true, "Pandoc and XeLaTeX seem to be available.") := by
    simp [check_pandoc_and_xelatex, h1, h2, h3, h4]
  simp [create_pdf, hc, h6, h5]

/-- Witness for the amended C5 at a concrete environment. -/
theorem create_pdf_write_failure_precedes_converter_witness :
    create_pdf "prompt" "goodbye" envWriteFail
      = ([PdfEv.spawnProc xelatexProbe],
         .error ("Could not save Markdown file to '"
                  ++ pjoin "/home/u/Documents/ThoughtPrint" ("abc123" ++ ".md")
                  ++ "': " ++ envWriteFail.writeErrMsg)) :=
  create_pdf_write_failure_precedes_converter "prompt" "goodbye" envWriteFail
    rfl rfl rfl rfl rfl "/home/u/Documents/ThoughtPrint" "abc123" rfl

theorem strDataAppend (a b : String) : (a ++ b).data = a.data ++ b.data := by
  cases a; cases b; rfl

theorem subAt_self_append : ∀ n post : List Char, subAt n (n ++ post) = true := by
  intro n
  induction n with
  | nil => intro post; rfl
  | cons c cs ih => intro post; simp [subAt, ih]

theorem subSomewhere_append_left :
    ∀ (n pre rest : List Char), subSomewhere n rest = true →
      subSomewhere n (pre ++ rest) = true := by
  intro n pre
  induction pre with
  | nil => intro rest h; simpa using h
  | cons b bs ih =>
    intro rest h
    simp only [List.cons_append, subSomewhere]
    have hbs : bs.append rest = bs ++ rest := rfl
    rw [hbs, ih rest h]
    simp

theorem subSomewhere_self_append (n post : List Char) :
    subSomewhere n (n ++ post) = true := by
  cases n with
  | nil => cases post <;> simp [subSomewhere, subAt]
  | cons c cs =>
    have hself := subAt_self_append (c :: cs) post
    simp only [List.cons_append] at hself ⊢
    simp [subSomewhere, hself]

/-- Any string whose character data splits around `n` contains `n`. -/
theorem containsSub_of_split (n h : String) (pre post : List Char)
    (hd : h.data = pre ++ (n.data ++ post)) : containsSub n h = true := by
  unfold containsSub
  rw [hd]
  exact subSomewhere_append_left n.data pre _ (subSomewhere_self_append n.data post)

/-- C8: with dependencies present, `create_pdf` writes the `.md` file
before spawning the converter; when the converter exits non-zero, the run
fails with a `PDFGenerationError` whose message carries the captured stdout
and stderr, and the `.md` file is among the files written (the code deletes
nothing, so it still exists afterwards). -/
theorem create_pdf_conversion_failure_keeps_markdown
    (userPrompt md : String) (env : PdfEnv)
    (h1 : env.dep.pandocOnPath = true) (h2 : env.dep.xelatexRaises = false)
    (h3 : env.dep.xelatexExit = 0)
    (h4 : containsSub "XeTeX" env.dep.xelatexStdout = true)
    (d b : String) (h5 : get_pdf_output_path userPrompt env.path = .ok (d, b))
    (h6 : env.writeOk = true) (h7 : env.pandocFileNotFound = false)
    (h8 : env.pandocTimeout = false) (h9 : env.pandocExit ≠ 0) :
    create_pdf userPrompt md env
      = ([PdfEv.spawnProc xelatexProbe,
          PdfEv.writeMd (pjoin d (b ++ ".md")) md,
          PdfEv.spawnProc (pandocCommand (pjoin d (b ++ ".md")) (pjoin d (b ++ ".pdf")) b)],
         .error (pandocFailMsg env.pandocExit env.pandocStdout env.pandocStderr))
    ∧ containsSub env.pandocStdout
        (pandocFailMsg env.pandocExit env.pandocStdout env.pandocStderr) = true
    ∧ containsSub env.pandocStderr
        (pandocFailMsg env.pandocExit env.pandocStdout env.pandocStderr) = true
    ∧ pjoin d (b ++ ".md") ∈ filesWritten (create_pdf userPrompt md env).1 := by
  have hc : check_pandoc_and_xelatex env.dep
      = ([PdfEv.spawnProc xelatexProbe], true, "Pandoc and XeLaTeX seem to be available.") := by
    simp [check_pandoc_and_xelatex, h1, h2, h3, h4]
  have hmain : create_pdf userPrompt md env
      = ([PdfEv.spawnProc xelatexProbe,
          PdfEv.writeMd (pjoin d (b ++ ".md")) md,
          PdfEv.spawnProc (pandocCommand (pjoin d (b ++ ".md")) (pjoin d (b ++ ".pdf")) b)],
         .error (pandocFailMsg env.pandocExit env.pandocStdout env.pandocStderr)) := by
    simp [create_pdf, hc, h5, h6, h7, h8, h9]
  refine ⟨hmain, ?_, ?_, ?_⟩
  · refine containsSub_of_split _ _
      ("Pandoc execution failed (return code " ++ toString env.pandocExit
        ++ ").\n" ++ "Stdout: ").data
      ("\nStderr: " ++ env.pandocStderr ++ "\n"
        ++ "Ensure Pandoc, XeLaTeX, and required fonts (e.g., SimSun) are installed and configured.").data ?_
    simp [pandocFailMsg, strDataAppend, List.append_assoc]
  · refine containsSub_of_split _ _
      ("Pandoc execution failed (return code " ++ toString env.pandocExit
        ++ ").\n" ++ "Stdout: " ++ env.pandocStdout ++ "\nStderr: ").data
      ("\n" ++ "Ensure Pandoc, XeLaTeX, and required fonts (e.g., SimSun) are installed and configured.").data ?_
    simp [pandocFailMsg, strDataAppend, List.append_assoc]
  · rw [hmain]
    simp [filesWritten]

/-- An environment in which everything works until pandoc exits non-zero. -/
def envPandocFail : PdfEnv where
  dep := { pandocOnPath := true, xelatexRaises := false, xelatexExit := 0,
           xelatexStdout := "XeTeX 3.141592653", shellRaises := false,
           shellExit := 0, shellStdout := "" }
  path := { cwd := "/cwd", homeRaises := false, home := "/home/u",
            isDir := fun _ => true, xdgDocumentsDir := none,
            mkdirOk := fun _ => true, uuidHex := "abc123" }
  writeOk := true
  writeErrMsg := ""
  pandocFileNotFound := false
  pandocTimeout := false
  pandocExit := 43
  pandocStdout := "OUT"
  pandocStderr := "ERR"

/-- Witness for C8 at a concrete failing conversion. -/
theorem create_pdf_conversion_failure_keeps_markdown_witness :
    create_pdf "p" "# doc" envPandocFail
      = ([PdfEv.spawnProc xelatexProbe,
          PdfEv.writeMd (pjoin "/home/u/Documents/ThoughtPrint" ("abc123" ++ ".md")) "# doc",
          PdfEv.spawnProc (pandocCommand
            (pjoin "/home/u/Documents/ThoughtPrint" ("abc123" ++ ".md"))
            (pjoin "/home/u/Documents/ThoughtPrint" ("abc123" ++ ".pdf")) "abc123")],
         .error (pandocFailMsg envPandocFail.pandocExit envPandocFail.pandocStdout envPandocFail.pandocStderr))
    ∧ containsSub envPandocFail.pandocStdout
        (pandocFailMsg envPandocFail.pandocExit envPandocFail.pandocStdout envPandocFail.pandocStderr) = true
    ∧ containsSub envPandocFail.pandocStderr
        (pandocFailMsg envPandocFail.pandocExit envPandocFail.pandocStdout envPandocFail.pandocStderr) = true
    ∧ pjoin "/home/u/Documents/ThoughtPrint" ("abc123" ++ ".md")
        ∈ filesWritten (create_pdf "p" "# doc" envPandocFail).1 :=
  create_pdf_conversion_failure_keeps_markdown "p" "# doc" envPandocFail
    rfl rfl rfl rfl "/home/u/Documents/ThoughtPrint" "abc123" rfl rfl rfl rfl
    (by decide)

theorem jstr_truthy_ne_empty (s : String)
    (h : JVal.truthy (.jstr s) = true) : s ≠ "" := by
  intro he
  subst he
  simp [JVal.truthy, String.isEmpty] at h

theorem allStrings_mem : ∀ (vs : List JVal) (ss : List String),
    allStrings vs = some ss → ∀ s ∈ ss, JVal.jstr s ∈ vs := by
  intro vs
  induction vs with
  | nil =>
    intro ss h s hs
    simp [allStrings] at h
    subst h
    simp at hs
  | cons v rest ih =>
    intro ss h s hs
    cases v with
    | jstr t =>
      simp only [allStrings] at h
      cases hr : allStrings rest with
      | none => rw [hr] at h; simp at h
      | some ss' =>
        rw [hr] at h
        simp only [Option.map_some'] at h
        cases h
        rcases List.mem_cons.mp hs with h' | h'
        · subst h'; exact List.mem_cons_self _ _
        · exact List.mem_cons_of_mem _ (ih ss' hr s h')
    | jnull => simp [allStrings] at h
    | jbool b => simp [allStrings] at h
    | jnum n => simp [allStrings] at h
    | jlist xs => simp [allStrings] at h
    | jobj fs => simp [allStrings] at h

theorem sortVals_props (vs : List JVal) (l : List String)
    (hall : ∀ v ∈ vs, JVal.truthy v = true)
    (h : sortVals vs = .ok l) : strAscending l ∧ ∀ s ∈ l, s ≠ "" := by
  unfold sortVals at h
  cases hs : allStrings vs with
  | none => rw [hs] at h; simp at h
  | some ss =>
    rw [hs] at h
    simp only [Except.ok.injEq] at h
    subst h
    refine ⟨pySorted_ascending ss, ?_⟩
    intro s hmem
    have hss : s ∈ ss := mem_pySorted s ss hmem
    have hvs : JVal.jstr s ∈ vs := allStrings_mem vs ss hs s hss
    exact jstr_truthy_ne_empty s (hall _ hvs)

theorem collectFieldVals_truthy (key : String) :
    ∀ (xs : List JVal) (vals : List JVal),
      collectFieldVals key xs = .ok vals → ∀ v ∈ vals, JVal.truthy v = true := by
  intro xs
  induction xs with
  | nil =>
    intro vals h v hv
    simp [collectFieldVals] at h
    subst h
    simp at hv
  | cons x rest ih =>
    intro vals h v hv
    cases x with
    | jobj fs =>
      simp only [collectFieldVals] at h
      cases hr : collectFieldVals key rest with
      | error e => rw [hr] at h; simp [Except.map] at h
      | ok tail =>
        rw [hr] at h
        simp only [Except.map, Except.ok.injEq] at h
        subst h
        cases hl : lookupField fs key with
        | none => simp [hl, otruthy] at hv; exact ih tail hr v hv
        | some u =>
          by_cases ho : otruthy (some u) = true
          · simp only [hl, ho, if_pos, Option.getD_some] at hv
            rcases List.mem_cons.mp hv with h' | h'
            · subst h'; exact ho
            · exact ih tail hr v h'
          · simp only [Bool.not_eq_true] at ho
            simp only [hl, ho, Bool.false_eq_true, if_false] at hv
            exact ih tail hr v hv
    | jnull => simp [collectFieldVals] at h
    | jbool b => simp [collectFieldVals] at h
    | jnum n => simp [collectFieldVals] at h
    | jstr s => simp [collectFieldVals] at h
    | jlist ys => simp [collectFieldVals] at h

theorem collectIdsGuarded_truthy (xs : List JVal) :
    ∀ v ∈ collectIdsGuarded xs, JVal.truthy v = true := by
  intro v hv
  unfold collectIdsGuarded at hv
  rcases List.mem_filterMap.mp hv with ⟨x, _, hfx⟩
  cases x with
  | jobj fs =>
    simp only at hfx
    by_cases ho : otruthy (lookupField fs "id") = true
    · rw [if_pos ho] at hfx
      rw [hfx] at ho
      simpa [otruthy] using ho
    · rw [if_neg ho] at hfx
      simp at hfx
  | jnull => simp at hfx
  | jbool b => simp at hfx
  | jnum n => simp at hfx
  | jstr s => simp at hfx
  | jlist ys => simp at hfx

theorem parseOpenAIModels_ok (rd : JVal) (l : List String)
    (h : parseOpenAIModels rd = .ok l) : strAscending l ∧ ∀ s ∈ l, s ≠ "" := by
  cases rd with
  | jobj fs =>
    cases hld : lookupField fs "data" with
    | none => simp [parseOpenAIModels, hld] at h
    | some v =>
      cases v with
      | jlist xs =>
        cases xs with
        | nil => simp [parseOpenAIModels, hld] at h
        | cons x rest =>
          simp only [parseOpenAIModels, hld] at h
          cases hc : collectFieldVals "id" (x :: rest) with
          | error e => rw [hc] at h; simp at h
          | ok vals =>
            rw [hc] at h
            exact sortVals_props vals l (collectFieldVals_truthy "id" (x :: rest) vals hc) h
      | jnull => simp [parseOpenAIModels, hld] at h
      | jbool b => simp [parseOpenAIModels, hld] at h
      | jnum n => simp [parseOpenAIModels, hld] at h
      | jstr s => simp [parseOpenAIModels, hld] at h
      | jobj gs => simp [parseOpenAIModels, hld] at h
  | jlist xs =>
    simp only [parseOpenAIModels] at h
    exact sortVals_props _ l (collectIdsGuarded_truthy xs) h
  | jnull => simp [parseOpenAIModels] at h
  | jbool b => simp [parseOpenAIModels] at h
  | jnum n => simp [parseOpenAIModels] at h
  | jstr s => simp [parseOpenAIModels] at h

theorem parseOllamaModels_ok (rd : JVal) (l : List String)
    (h : parseOllamaModels rd = .ok l) : strAscending l ∧ ∀ s ∈ l, s ≠ "" := by
  cases rd with
  | jobj fs =>
    cases hld : lookupField fs "models" with
    | none => simp [parseOllamaModels, hld] at h
    | some v =>
      cases v with
      | jlist xs =>
        cases xs with
        | nil => simp [parseOllamaModels, hld] at h
        | cons x rest =>
          simp only [parseOllamaModels, hld] at h
          cases hc : collectFieldVals "name" (x :: rest) with
          | error e => rw [hc] at h; simp at h
          | ok vals =>
            rw [hc] at h
            exact sortVals_props vals l (collectFieldVals_truthy "name" (x :: rest) vals hc) h
      | jnull => simp [parseOllamaModels, hld] at h
      | jbool b => simp [parseOllamaModels, hld] at h
      | jnum n => simp [parseOllamaModels, hld] at h
      | jstr s => simp [parseOllamaModels, hld] at h
      | jobj gs => simp [parseOllamaModels, hld] at h
  | jnull => simp [parseOllamaModels] at h
  | jbool b => simp [parseOllamaModels] at h
  | jnum n => simp [parseOllamaModels] at h
  | jstr s => simp [parseOllamaModels] at h
  | jlist xs => simp [parseOllamaModels] at h

theorem httpJson_ok {A : Type} (net : NetResult) (p1 p2 : String)
    (parse : JVal → Except PyErr A) (x : A)
    (h : httpJson net p1 p2 parse = .ok x) : ∃ rd, parse rd = .ok x := by
  cases net with
  | raised m => simp [httpJson] at h
  | resp r =>
    simp only [httpJson] at h
    by_cases hs : 400 ≤ r.status ∧ r.status < 600
    · rw [if_pos hs] at h; simp at h
    · rw [if_neg hs] at h
      cases hb : r.body with
      | none => rw [hb] at h; simp at h
      | some rd => rw [hb] at h; exact ⟨rd, h⟩

/-- C3 amended: every successfully parsed model listing — both
OpenAI-compatible shapes and the Ollama shape — is returned sorted in
ascending lexicographic order with every identifier non-empty; duplicates
are retained, not removed. -/
theorem fetch_models_sorted_ascending_nonempty (cfg : PyDict)
    (sysProxies : SysProxies) (net : NetResult) (l : List String)
    (h : (fetch_available_models cfg sysProxies net).2 = .ok l) :
    strAscending l ∧ ∀ s ∈ l, s ≠ "" := by
  by_cases h0 : cfg.isEmpty
  · simp [fetch_available_models, h0] at h
  · by_cases h1 : (truthy (dget cfg "type") && truthy (dget cfg "base_url")) = true
    · by_cases h2 : (dget cfg "type" == some "openai_compatible") = true
      · simp only [fetch_available_models, h0, h1, h2] at h
        simp at h
        rcases httpJson_ok net _ _ parseOpenAIModels l h with ⟨rd, hp⟩
        exact parseOpenAIModels_ok rd l hp
      · by_cases h4 : (dget cfg "type" == some "ollama") = true
        · simp only [Bool.not_eq_true] at h2
          simp only [fetch_available_models, h0, h1, h2, h4] at h
          simp at h
          rcases httpJson_ok net _ _ parseOllamaModels l h with ⟨rd, hp⟩
          exact parseOllamaModels_ok rd l hp
        · simp only [Bool.not_eq_true] at h2 h4
          simp [fetch_available_models, h0, h1, h2, h4] at h
    · simp only [Bool.not_eq_true] at h1
      simp [fetch_available_models, h0, h1] at h

/-- A model-listing response whose `data` array repeats an identifier. -/
def dupModelsBody : JVal :=
  .jobj [("data", .jlist
    [.jobj [("id", .jstr "b")], .jobj [("id", .jstr "a")], .jobj [("id", .jstr "a")]])]

/-- Counterexample to C3 as stated: `sorted()` does not remove duplicates.
A response listing the id `a` twice yields `["a", "a", "b"]`, which is
sorted but contains a duplicate. -/
theorem fetch_models_keeps_duplicates :
    (fetch_available_models [("type", "openai_compatible"), ("base_url", "http://h")]
        [] (.resp ⟨200, some dupModelsBody⟩)).2 = .ok ["a", "a", "b"]
    ∧ ¬ (["a", "a", "b"] : List String).Nodup :=
  ⟨rfl, by decide⟩

/-- Witness for the amended C3, at a concrete Ollama-shaped listing. -/
theorem fetch_models_sorted_ascending_nonempty_witness :
    strAscending ["m1", "m2"]
    ∧ "m1" ≠ "" :=
  ⟨(fetch_models_sorted_ascending_nonempty
      [("type", "ollama"), ("base_url", "http://localhost:11434")] []
      (.resp ⟨200, some (.jobj [("models", .jlist
        [.jobj [("name", .jstr "m2")], .jobj [("name", .jstr "m1")]])])⟩)
      ["m1", "m2"] rfl).1,
   (fetch_models_sorted_ascending_nonempty
      [("type", "ollama"), ("base_url", "http://localhost:11434")] []
      (.resp ⟨200, some (.jobj [("models", .jlist
        [.jobj [("name", .jstr "m2")], .jobj [("name", .jstr "m1")]])])⟩)
      ["m1", "m2"] rfl).2 "m1" (by simp)⟩

theorem mdWrites_append (a b : List PdfEv) :
    mdWrites (a ++ b) = mdWrites a ++ mdWrites b := by
  simp [mdWrites, List.filterMap_append]

theorem check_trace_has_no_writes (dep : DepEnv) :
    mdWrites (check_pandoc_and_xelatex dep).1 = [] := by
  unfold check_pandoc_and_xelatex
  by_cases h0 : dep.pandocOnPath
  · by_cases h1 : dep.xelatexRaises
    · simp [h0, h1, mdWrites, xelatexProbe]
    · by_cases h2 : (dep.xelatexExit != 0 || !containsSub "XeTeX" dep.xelatexStdout) = true
      · by_cases h3 : dep.shellRaises
        · simp [h0, h1, h2, h3, mdWrites, xelatexProbe]
        · by_cases h4 : (dep.shellExit != 0 || !containsSub "XeTeX" dep.shellStdout) = true
          · simp [h0, h1, h2, h3, h4, mdWrites, xelatexProbe]
          · simp only [Bool.not_eq_true] at h4
            simp [h0, h1, h2, h3, h4, mdWrites, xelatexProbe]
      · simp only [Bool.not_eq_true] at h2
        simp [h0, h1, h2, mdWrites, xelatexProbe]
  · simp [h0, mdWrites]

/-- Whatever the environment, a `create_pdf` run writes either nothing or
exactly the Markdown string it was given. -/
theorem mdWrites_create_pdf (up md : String) (env : PdfEnv) :
    mdWrites (create_pdf up md env).1 = []
    ∨ mdWrites (create_pdf up md env).1 = [md] := by
  have hchk := check_trace_has_no_writes env.dep
  unfold create_pdf
  rcases hc : check_pandoc_and_xelatex env.dep with ⟨t0, ok, msg⟩
  rw [hc] at hchk
  simp only at hchk
  have hall : ∀ a ∈ t0,
      (match a with | PdfEv.writeMd _ c => some c | _ => none) = none := by
    simpa [mdWrites] using hchk
  cases ok with
  | false => left; simpa using hchk
  | true =>
    cases hp : get_pdf_output_path up env.path with
    | error m => left; simpa using hchk
    | ok db =>
      rcases db with ⟨d, b⟩
      by_cases hw : env.writeOk
      · by_cases hf : env.pandocFileNotFound
        · right
          simp [hw, hf, mdWrites_append, hchk, mdWrites]
          exact hall
        · by_cases htm : env.pandocTimeout
          · right
            simp [hw, hf, htm, mdWrites_append, hchk, mdWrites]
            exact hall
          · by_cases hx : (env.pandocExit != 0) = true
            · right
              simp [hw, hf, htm, hx, mdWrites_append, hchk, mdWrites]
              exact hall
            · simp only [Bool.not_eq_true] at hx
              right
              simp [hw, hf, htm, hx, mdWrites_append, hchk, mdWrites]
              exact hall
      · left
        simp only [Bool.not_eq_true] at hw
        simp [hw, hchk]

/-- The OpenAI-compatible chat response body carrying content `s`. -/
def openaiChatBody (s : String) : JVal :=
  .jobj [("choices", .jlist [.jobj [("message", .jobj [("content", .jstr s)])]])]

/-- The Ollama chat response body carrying content `s`. -/
def ollamaChatBody (s : String) : JVal :=
  .jobj [("message", .jobj [("content", .jstr s)])]

/-- C10: when the provider response carries a present, non-empty content
field — in either the OpenAI-compatible or the Ollama shape —
`get_ai_response` returns that content with surrounding whitespace
stripped, and consequently any Markdown the chat-then-render pipeline
persists is exactly the stripped text. -/
theorem chat_strips_content_and_persists_stripped
    (userInput systemPrompt s : String) (cfg : PyDict) (sysProxies : SysProxies)
    (st : Nat) (net : NetResult) (penv : PdfEnv)
    (hs : s.isEmpty = false) (hst : st < 400)
    (hbase : truthy (dget cfg "base_url") = true)
    (hmodel : truthy (dget cfg "model") = true)
    (hbr : (dget cfg "type" = some "openai_compatible"
             ∧ truthy (dget cfg "api_key") = true
             ∧ net = NetResult.resp ⟨st, some (openaiChatBody s)⟩)
         ∨ (dget cfg "type" = some "ollama"
             ∧ net = NetResult.resp ⟨st, some (ollamaChatBody s)⟩)) :
    (get_ai_response userInput cfg systemPrompt sysProxies net).2 = .ok (pyStrip s)
    ∧ (mdWrites (chatThenRender userInput cfg systemPrompt sysProxies net penv).1 = []
       ∨ mdWrites (chatThenRender userInput cfg systemPrompt sysProxies net penv).1
           = [pyStrip s]) := by
  have hnot : ¬ (400 ≤ st ∧ st < 600) := fun hh => absurd hst (Nat.not_lt.mpr hh.1)
  have hchat : (get_ai_response userInput cfg systemPrompt sysProxies net).2
      = .ok (pyStrip s) := by
    rcases hbr with ⟨htype, hkey, hnet⟩ | ⟨htype, hnet⟩
    · cases cfg with
      | nil => simp [dget] at htype
      | cons kv rest =>
        have ht : truthy (some "openai_compatible") = true := rfl
        subst hnet
        simp [get_ai_response, htype, ht, hbase, hmodel, hkey, httpJson, hnot,
              extractOpenAIContent, openaiChatBody, lookupField, msgContent,
              JVal.truthy, otruthy, hs]
    · cases cfg with
      | nil => simp [dget] at htype
      | cons kv rest =>
        have ht : truthy (some "ollama") = true := rfl
        subst hnet
        simp [get_ai_response, htype, ht, hbase, hmodel, httpJson, hnot,
              extractOllamaContent, ollamaChatBody, lookupField, msgContent,
              JVal.truthy, otruthy, hs]
  refine ⟨hchat, ?_⟩
  simp only [chatThenRender, hchat]
  exact mdWrites_create_pdf userInput (pyStrip s) penv

/-- A fully healthy render environment for the C10 witness. -/
def envRenderOk : PdfEnv where
  dep := { pandocOnPath := true, xelatexRaises := false, xelatexExit := 0,
           xelatexStdout := "XeTeX 3.141592653", shellRaises := false,
           shellExit := 0, shellStdout := "" }
  path := { cwd := "/cwd", homeRaises := false, home := "/home/u",
            isDir := fun _ => true, xdgDocumentsDir := none,
            mkdirOk := fun _ => true, uuidHex := "feed01" }
  writeOk := true
  writeErrMsg := ""
  pandocFileNotFound := false
  pandocTimeout := false
  pandocExit := 0
  pandocStdout := ""
  pandocStderr := ""

/-- The provider config used by the C10 witness. -/
def cfgChatFull : PyDict :=
  [("type", "openai_compatible"), ("base_url", "http://h"), ("model", "m"), ("api_key", "k")]

/-- Witness for C10 at a concrete response whose content carries
surrounding whitespace. -/
theorem chat_strips_content_and_persists_stripped_witness :
    (get_ai_response "u" cfgChatFull "sys" []
        (.resp ⟨200, some (openaiChatBody "  hi  ")⟩)).2 = .ok (pyStrip "  hi  ")
    ∧ (mdWrites (chatThenRender "u" cfgChatFull "sys" []
          (.resp ⟨200, some (openaiChatBody "  hi  ")⟩) envRenderOk).1 = []
       ∨ mdWrites (chatThenRender "u" cfgChatFull "sys" []
          (.resp ⟨200, some (openaiChatBody "  hi  ")⟩) envRenderOk).1
           = [pyStrip "  hi  "]) :=
  chat_strips_content_and_persists_stripped "u" "sys" "  hi  " cfgChatFull [] 200
    (.resp ⟨200, some (openaiChatBody "  hi  ")⟩) envRenderOk rfl (by decide) rfl rfl
    (Or.inl ⟨rfl, rfl, rfl⟩)
